import Mathlib

/-!
Shallow embedding of the drag-to-scroll gesture controller implemented by
the hook useDragScroll (source file src/Starpointer/src/data/stars.ts,
App component section, lines 75-203).  The mutable closure variables of
the hook together with the pieces of browser state the handlers touch are
collected in one World structure; each event handler of the source becomes
a total function World -> World (the move handler also reports whether it
called preventDefault on its event).
-/

/-- A pointer event as consumed by the handlers: the fields of the DOM
PointerEvent that the source reads (pointerType, button, pointerId,
clientY) plus one derived fact about the target, namely whether
target.closest(ignoreSelector) is non-null. -/
structure PEvent where
  pointerType : String
  button : Int
  pointerId : Int
  clientY : Int
  targetInIgnore : Bool
deriving DecidableEq, Repr

/-- The closure state of useDragScroll (isPointerDown, isDragActive,
suppressClick, pointerIdentifier, startY, startScrollTop,
previousUserSelect) together with the host state the handlers read or
write: the scroll offset of the container (element.scrollTop), whether the
active class is on the container (element.classList), the global
text-selection mode (document.body.style.userSelect), which pointer id the
element has captured, platform capability and failure flags for the
pointer-capture operations, whether the one-shot click interceptor is
attached and whether its removal timer is pending, whether an ignore
selector was configured, and whether the five listeners are attached. -/
structure World where
  isPointerDown : Bool
  isDragActive : Bool
  suppressClick : Bool
  pointerIdentifier : Option Int
  startY : Int
  startScrollTop : Int
  previousUserSelect : Option String
  scrollTop : Int
  classActive : Bool
  userSelect : String
  captured : Option Int
  hasPointerCaptureAvail : Bool
  setCaptureFails : Bool
  releaseCaptureFails : Bool
  clickGuardInstalled : Bool
  guardTimerPending : Bool
  ignoreConfigured : Bool
  listenersAttached : Bool
deriving DecidableEq, Repr

/-- element.setPointerCapture(id): may throw on hosts that do not
support it (modelled by the setCaptureFails flag). -/
def setPointerCaptureOp (w : World) (id : Int) : Except String World :=
  if w.setCaptureFails then Except.error "NotSupportedError"
  else Except.ok { w with captured := some id }

/-- element.releasePointerCapture(pid): may throw on hosts that do not
support it (modelled by the releaseCaptureFails flag). -/
def releasePointerCaptureOp (w : World) : Except String World :=
  if w.releaseCaptureFails then Except.error "NotSupportedError"
  else Except.ok { w with captured := none }

/-- beginDrag (source lines 94-105), with the try/catch around
setPointerCapture made explicit: an error from the capture request is
caught and ignored, so the result is always ok. -/
def beginDragE (w : World) (id : Int) : Except String World :=
  if w.isDragActive = true then Except.ok w
  else
    let w1 := { w with isDragActive := true
                     , previousUserSelect := some w.userSelect
                     , userSelect := "none"
                     , classActive := true }
    match setPointerCaptureOp w1 id with
    | Except.ok w2 => Except.ok w2
    | Except.error _ => Except.ok w1

/-- beginDrag as a plain state transformer. -/
def beginDrag (w : World) (id : Int) : World :=
  match beginDragE w id with
  | Except.ok w2 => w2
  | Except.error _ => w

/-- endDrag (source lines 107-122): release capture only when
hasPointerCapture is available and reports the active pointer id as
captured (element.hasPointerCapture?.(pointerIdentifier)), with the
try/catch around releasePointerCapture made explicit; then remove the
active class, restore the saved selection mode if any, and clear
isDragActive. -/
def endDragE (w : World) : Except String World :=
  if w.isDragActive = false then Except.ok w
  else
    let w1 :=
      match w.pointerIdentifier with
      | some pid =>
          if w.hasPointerCaptureAvail = true ∧ w.captured = some pid then
            match releasePointerCaptureOp w with
            | Except.ok w2 => w2
            | Except.error _ => w
          else w
      | none => w
    let w2 := { w1 with classActive := false }
    let w3 :=
      match w2.previousUserSelect with
      | some prev => { w2 with userSelect := prev, previousUserSelect := none }
      | none => w2
    Except.ok { w3 with isDragActive := false }

/-- endDrag as a plain state transformer. -/
def endDrag (w : World) : World :=
  match endDragE w with
  | Except.ok w2 => w2
  | Except.error _ => w

/-- onPointerDown (source lines 124-140): bail out on touch pointers, on
mouse pointers with a non-primary button, and on targets inside the
configured ignore selector; otherwise record the gesture start. -/
def onPointerDown (w : World) (e : PEvent) : World :=
  if e.pointerType = "touch" then w
  else if e.pointerType = "mouse" ∧ e.button ≠ 0 then w
  else if w.ignoreConfigured = true ∧ e.targetInIgnore = true then w
  else { w with isPointerDown := true
              , pointerIdentifier := some e.pointerId
              , startY := e.clientY
              , startScrollTop := w.scrollTop
              , suppressClick := false }

/-- onPointerMove (source lines 142-154).  The Bool in the result records
whether event.preventDefault() was called. -/
def onPointerMove (w : World) (e : PEvent) : World × Bool :=
  if w.isPointerDown = false ∨ w.pointerIdentifier ≠ some e.pointerId then (w, false)
  else
    let deltaY : Int := e.clientY - w.startY
    let w1 := if w.isDragActive = false ∧ 2 < deltaY.natAbs
              then beginDrag w e.pointerId else w
    if w1.isDragActive = true then
      ({ w1 with suppressClick := true
               , scrollTop := w1.startScrollTop - deltaY }, true)
    else (w1, false)

/-- finishInteraction (source lines 156-176): on pointer-up of the active
pointer, end the drag if one is active; if suppressClick is set, attach
the capturing click interceptor and queue the zero-delay timer that will
remove it; then reset the per-gesture fields. -/
def finishInteraction (w : World) (e : PEvent) : World :=
  if w.isPointerDown = false ∨ w.pointerIdentifier ≠ some e.pointerId then w
  else
    let w1 :=
      if w.isDragActive = true then
        let w2 := endDrag w
        if w2.suppressClick = true then
          { w2 with clickGuardInstalled := true, guardTimerPending := true }
        else w2
      else w
    { w1 with isPointerDown := false
            , pointerIdentifier := none
            , suppressClick := false }

/-- cancelInteraction (source lines 178-186), wired to pointerleave and
pointercancel: same as finishInteraction but never installs the click
interceptor. -/
def cancelInteraction (w : World) (e : PEvent) : World :=
  if w.isPointerDown = false ∨ w.pointerIdentifier ≠ some e.pointerId then w
  else
    let w1 := if w.isDragActive = true then endDrag w else w
    { w1 with isPointerDown := false
            , pointerIdentifier := none
            , suppressClick := false }

/-- Dispatch of a click event on the container: while the capturing
preventClick listener (source lines 162-165) is attached it calls
preventDefault and stopPropagation on the click; the Bool records whether
the click was cancelled.  The listener does not detach itself. -/
def dispatchClick (w : World) : World × Bool :=
  if w.clickGuardInstalled = true then (w, true) else (w, false)

/-- The zero-delay timer queued at source lines 167-169 firing: it removes
the preventClick listener. -/
def guardTimerFire (w : World) : World :=
  if w.guardTimerPending = true then
    { w with clickGuardInstalled := false, guardTimerPending := false }
  else w

/-- The effect cleanup (source lines 194-201): run endDrag, then remove
the five listeners. -/
def teardown (w : World) : World :=
  { endDrag w with listenersAttached := false }

/-- One event arriving at the controller: the five pointer listeners
(source lines 188-192, with pointerleave and pointercancel both wired to
cancelInteraction), a click dispatched to the container, or the
interceptor-removal timer firing. -/
inductive Ev where
  | down (e : PEvent)
  | move (e : PEvent)
  | up (e : PEvent)
  | leave (e : PEvent)
  | cancel (e : PEvent)
  | click
  | timer
deriving DecidableEq, Repr

/-- Processing one event. -/
def step (w : World) (ev : Ev) : World :=
  match ev with
  | Ev.down e => onPointerDown w e
  | Ev.move e => (onPointerMove w e).1
  | Ev.up e => finishInteraction w e
  | Ev.leave e => cancelInteraction w e
  | Ev.cancel e => cancelInteraction w e
  | Ev.click => (dispatchClick w).1
  | Ev.timer => guardTimerFire w

/-- Processing a sequence of events in order. -/
def run (w : World) : List Ev → World
  | [] => w
  | ev :: rest => run (step w ev) rest

/-- Folding the move handler over a list of move events. -/
def runMoves (w : World) : List PEvent → World
  | [] => w
  | e :: rest => runMoves (onPointerMove w e).1 rest

/-- The world right after the effect attaches: all closure variables at
their declared initial values, no class, selection mode at some ambient
value, nothing captured, capture operations supported and succeeding. -/
def initialWorld : World :=
  { isPointerDown := false
  , isDragActive := false
  , suppressClick := false
  , pointerIdentifier := none
  , startY := 0
  , startScrollTop := 0
  , previousUserSelect := none
  , scrollTop := 0
  , classActive := false
  , userSelect := "auto"
  , captured := none
  , hasPointerCaptureAvail := true
  , setCaptureFails := false
  , releaseCaptureFails := false
  , clickGuardInstalled := false
  , guardTimerPending := false
  , ignoreConfigured := false
  , listenersAttached := true }

/-- Primary-button mouse down, pointer 1, at y = 100. -/
def eDown1 : PEvent :=
  { pointerType := "mouse", button := 0, pointerId := 1, clientY := 100
  , targetInIgnore := false }

/-- Mouse move of pointer 1 to y = 90 (a displacement of -10). -/
def eMove1 : PEvent :=
  { pointerType := "mouse", button := 0, pointerId := 1, clientY := 90
  , targetInIgnore := false }

/-- Mouse up of pointer 1. -/
def eUp1 : PEvent :=
  { pointerType := "mouse", button := 0, pointerId := 1, clientY := 90
  , targetInIgnore := false }

/-- Primary-button mouse down of a second pointer, id 2, at y = 150. -/
def eDown2 : PEvent :=
  { pointerType := "mouse", button := 0, pointerId := 2, clientY := 150
  , targetInIgnore := false }

/-- Pen pointer down with a non-primary button (button 2), pointer 7. -/
def ePenBtn2 : PEvent :=
  { pointerType := "pen", button := 2, pointerId := 7, clientY := 40
  , targetInIgnore := false }

/-- Touch pointer down, pointer 3. -/
def eTouch : PEvent :=
  { pointerType := "touch", button := 0, pointerId := 3, clientY := 60
  , targetInIgnore := false }

/-- Mouse move of an unrelated pointer, id 9. -/
def eMoveOther : PEvent :=
  { pointerType := "mouse", button := 0, pointerId := 9, clientY := 55
  , targetInIgnore := false }

/-- World after pointer 1 goes down on the initial world (phase Armed). -/
def armedW : World := onPointerDown initialWorld eDown1

/-- World after pointer 1 goes down and drags past the threshold
(phase Dragging). -/
def draggingW : World := run initialWorld [Ev.down eDown1, Ev.move eMove1]

/-- World after a full drag gesture of pointer 1 ends with pointer-up:
back at Idle, the click interceptor installed and its removal timer
pending. -/
def postDragW : World :=
  run initialWorld [Ev.down eDown1, Ev.move eMove1, Ev.up eUp1]

/-- The save/restore invariant for the global text-selection mode, for an
ambient mode v: while no drag is active the mode equals v and nothing is
saved; while a drag is active the saved value is exactly v; and a drag can
only be active while a pointer is down. -/
def selInv (v : String) (w : World) : Prop :=
  (w.isDragActive = true → w.previousUserSelect = some v) ∧
  (w.isDragActive = false → w.userSelect = v ∧ w.previousUserSelect = none) ∧
  (w.isDragActive = true → w.isPointerDown = true)

/-! Helper lemmas shared by the claim theorems. -/

theorem beginDrag_of_active (w : World) (id : Int) (h : w.isDragActive = true) :
    beginDrag w id = w := by
  simp [beginDrag, beginDragE, h]

theorem beginDrag_of_inactive (w : World) (id : Int) (h : w.isDragActive = false) :
    (beginDrag w id).isDragActive = true ∧
    (beginDrag w id).startScrollTop = w.startScrollTop ∧
    (beginDrag w id).scrollTop = w.scrollTop ∧
    (beginDrag w id).isPointerDown = w.isPointerDown ∧
    (beginDrag w id).pointerIdentifier = w.pointerIdentifier ∧
    (beginDrag w id).startY = w.startY ∧
    (beginDrag w id).suppressClick = w.suppressClick ∧
    (beginDrag w id).previousUserSelect = some w.userSelect ∧
    (beginDrag w id).userSelect = "none" ∧
    (beginDrag w id).classActive = true := by
  by_cases hf : w.setCaptureFails = true <;>
    simp [beginDrag, beginDragE, setPointerCaptureOp, h, hf]

theorem endDrag_of_inactive (w : World) (h : w.isDragActive = false) :
    endDrag w = w := by
  simp [endDrag, endDragE, h]

theorem endDrag_core (w : World) (h : w.isDragActive = true) :
    (endDrag w).isDragActive = false ∧
    (endDrag w).classActive = false ∧
    (endDrag w).isPointerDown = w.isPointerDown ∧
    (endDrag w).pointerIdentifier = w.pointerIdentifier ∧
    (endDrag w).suppressClick = w.suppressClick ∧
    (endDrag w).scrollTop = w.scrollTop ∧
    (endDrag w).startY = w.startY ∧
    (endDrag w).startScrollTop = w.startScrollTop ∧
    (endDrag w).clickGuardInstalled = w.clickGuardInstalled ∧
    (endDrag w).guardTimerPending = w.guardTimerPending ∧
    (endDrag w).listenersAttached = w.listenersAttached ∧
    (endDrag w).previousUserSelect = none ∧
    (endDrag w).userSelect
      = (match w.previousUserSelect with | some v => v | none => w.userSelect) := by
  rcases hp : w.pointerIdentifier with _ | pid <;>
    rcases hu : w.previousUserSelect with _ | v
  · simp [endDrag, endDragE, h, hp, hu]
  · simp [endDrag, endDragE, h, hp, hu]
  · by_cases hc : w.hasPointerCaptureAvail = true ∧ w.captured = some pid
    · by_cases hr : w.releaseCaptureFails = true <;>
        simp [endDrag, endDragE, releasePointerCaptureOp, h, hp, hu, hc, hr]
    · simp [endDrag, endDragE, h, hp, hu, hc]
  · by_cases hc : w.hasPointerCaptureAvail = true ∧ w.captured = some pid
    · by_cases hr : w.releaseCaptureFails = true <;>
        simp [endDrag, endDragE, releasePointerCaptureOp, h, hp, hu, hc, hr]
    · simp [endDrag, endDragE, h, hp, hu, hc]

theorem onPointerDown_arm (w : World) (e : PEvent)
    (ht : e.pointerType ≠ "touch")
    (hb : ¬(e.pointerType = "mouse" ∧ e.button ≠ 0))
    (hi : ¬(w.ignoreConfigured = true ∧ e.targetInIgnore = true)) :
    onPointerDown w e = { w with isPointerDown := true
                               , pointerIdentifier := some e.pointerId
                               , startY := e.clientY
                               , startScrollTop := w.scrollTop
                               , suppressClick := false } := by
  simp [onPointerDown, ht, hb, hi]

theorem beginDrag_scrollTop (w : World) (id : Int) :
    (beginDrag w id).scrollTop = w.scrollTop := by
  by_cases h : w.isDragActive = true
  · rw [beginDrag_of_active w id h]
  · exact (beginDrag_of_inactive w id (by simpa using h)).2.2.1

theorem endDrag_scrollTop (w : World) : (endDrag w).scrollTop = w.scrollTop := by
  by_cases h : w.isDragActive = true
  · exact (endDrag_core w h).2.2.2.2.2.1
  · rw [endDrag_of_inactive w (by simpa using h)]

theorem finishInteraction_scrollTop (w : World) (e : PEvent) :
    (finishInteraction w e).scrollTop = w.scrollTop := by
  by_cases hg : w.isPointerDown = false ∨ w.pointerIdentifier ≠ some e.pointerId
  · simp [finishInteraction, hg]
  · by_cases hd : w.isDragActive = true
    · by_cases hs : (endDrag w).suppressClick = true <;>
        simp [finishInteraction, hg, hd, hs, endDrag_scrollTop]
    · simp [finishInteraction, hg, hd]

theorem cancelInteraction_scrollTop (w : World) (e : PEvent) :
    (cancelInteraction w e).scrollTop = w.scrollTop := by
  by_cases hg : w.isPointerDown = false ∨ w.pointerIdentifier ≠ some e.pointerId
  · simp [cancelInteraction, hg]
  · by_cases hd : w.isDragActive = true <;>
      simp [cancelInteraction, hg, hd, endDrag_scrollTop]

theorem onPointerDown_scrollTop (w : World) (e : PEvent) :
    (onPointerDown w e).scrollTop = w.scrollTop := by
  simp only [onPointerDown]
  split
  · rfl
  · split
    · rfl
    · split <;> rfl

theorem step_scroll_write (w : World) (ev : Ev)
    (h : (step w ev).scrollTop ≠ w.scrollTop) :
    (step w ev).isDragActive = true := by
  cases ev with
  | down e => exact absurd (onPointerDown_scrollTop w e) h
  | up e => exact absurd (finishInteraction_scrollTop w e) h
  | leave e => exact absurd (cancelInteraction_scrollTop w e) h
  | cancel e => exact absurd (cancelInteraction_scrollTop w e) h
  | click => exact absurd (by simp [step, dispatchClick]; split <;> rfl) h
  | timer => exact absurd (by simp [step, guardTimerFire]; split <;> rfl) h
  | move e =>
      by_cases hg : w.isPointerDown = false ∨ w.pointerIdentifier ≠ some e.pointerId
      · exact absurd (by simp [step, onPointerMove, hg]) h
      · by_cases hc : w.isDragActive = false ∧ 2 < (e.clientY - w.startY).natAbs
        · by_cases hd : (beginDrag w e.pointerId).isDragActive = true
          · simp [step, onPointerMove, hg, hc, hd]
          · exact absurd (by simp [step, onPointerMove, hg, hc, hd,
              beginDrag_scrollTop]) h
        · by_cases hd : w.isDragActive = true
          · simp [step, onPointerMove, hg, hc, hd]
          · have hda : w.isDragActive = false := by simpa using hd
            have hlt : ¬ 2 < (e.clientY - w.startY).natAbs :=
              fun hx => hc ⟨hda, hx⟩
            exact absurd (by simp [step, onPointerMove, hg, hda, hlt]) h

theorem onPointerMove_small (w : World) (e : PEvent)
    (hdown : w.isPointerDown = true)
    (hact : w.isDragActive = false)
    (hid : w.pointerIdentifier = some e.pointerId)
    (hdy : (e.clientY - w.startY).natAbs ≤ 2) :
    onPointerMove w e = (w, false) := by
  have hlt : ¬ (2 < (e.clientY - w.startY).natAbs) := by omega
  simp [onPointerMove, hdown, hid, hact, hlt]

theorem runMoves_small (ed : PEvent) (ems : List PEvent) :
    ∀ (w : World), w.isPointerDown = true → w.isDragActive = false →
      w.pointerIdentifier = some ed.pointerId → w.startY = ed.clientY →
      (∀ em ∈ ems, em.pointerId = ed.pointerId ∧
        (em.clientY - ed.clientY).natAbs ≤ 2) →
      runMoves w ems = w := by
  induction ems with
  | nil => intro w _ _ _ _ _; rfl
  | cons em rest ih =>
      intro w h1 h2 h3 h4 h5
      have he := h5 em (List.mem_cons_self _ _)
      have hmv : onPointerMove w em = (w, false) :=
        onPointerMove_small w em h1 h2 (by rw [h3, he.1])
          (by rw [h4]; exact he.2)
      simp only [runMoves, hmv]
      exact ih w h1 h2 h3 h4 (fun e he2 => h5 e (List.mem_cons_of_mem _ he2))

/-- Claim C4: after a qualifying pointer-down and a pointer-move of the
same pointer with vertical displacement deltaY, |deltaY| > 2, the phase
becomes Dragging, the scroll offset of the container becomes the recorded
start scroll offset minus deltaY, suppressClick is set, and
preventDefault is called on the move event. -/
theorem drag_move_updates_scroll (w0 : World) (ed em : PEvent)
    (ht : ed.pointerType ≠ "touch")
    (hb : ¬(ed.pointerType = "mouse" ∧ ed.button ≠ 0))
    (hi : ¬(w0.ignoreConfigured = true ∧ ed.targetInIgnore = true))
    (hid : em.pointerId = ed.pointerId)
    (hdy : 2 < (em.clientY - ed.clientY).natAbs) :
    (onPointerMove (onPointerDown w0 ed) em).1.isDragActive = true ∧
    (onPointerMove (onPointerDown w0 ed) em).1.scrollTop
      = w0.scrollTop - (em.clientY - ed.clientY) ∧
    (onPointerMove (onPointerDown w0 ed) em).1.suppressClick = true ∧
    (onPointerMove (onPointerDown w0 ed) em).2 = true := by
  rw [onPointerDown_arm w0 ed ht hb hi]
  by_cases hda : w0.isDragActive = true
  · simp [onPointerMove, hid, hda, hdy]
  · have hda' : w0.isDragActive = false := by simpa using hda
    obtain ⟨h1, h2, h3, _⟩ :=
      beginDrag_of_inactive
        { w0 with isPointerDown := true
                , pointerIdentifier := some ed.pointerId
                , startY := ed.clientY
                , startScrollTop := w0.scrollTop
                , suppressClick := false } ed.pointerId (by simp [hda'])
    simp only [hda'] at h1 h2 h3
    simp [onPointerMove, hid, hda', hdy, h1, h2, h3]

/-- Witness for claim C4: on the initial world, pointer-down at y = 100
followed by a move of the same pointer to y = 90 (deltaY = -10) enters
Dragging and sets the scroll offset to startScrollOffset + 10. -/
theorem drag_move_updates_scroll_witness :
    (onPointerMove (onPointerDown initialWorld eDown1) eMove1).1.isDragActive
      = true ∧
    (onPointerMove (onPointerDown initialWorld eDown1) eMove1).1.scrollTop
      = initialWorld.scrollTop - (eMove1.clientY - eDown1.clientY) ∧
    (onPointerMove (onPointerDown initialWorld eDown1) eMove1).1.suppressClick
      = true ∧
    (onPointerMove (onPointerDown initialWorld eDown1) eMove1).2 = true :=
  drag_move_updates_scroll initialWorld eDown1 eMove1 (by decide) (by decide)
    (by decide) (by decide) (by decide)

/-- Claim C5: after a qualifying pointer-down from a non-dragging state,
a run of pointer-moves of the same pointer whose displacements all stay
within the 2 pixel threshold leaves the machine Armed and never moves the
scroll offset; moreover any event that changes the scroll offset leaves
the machine Dragging. -/
theorem small_moves_keep_armed (w0 : World) (ed : PEvent) (ems : List PEvent)
    (h0 : w0.isDragActive = false)
    (ht : ed.pointerType ≠ "touch")
    (hb : ¬(ed.pointerType = "mouse" ∧ ed.button ≠ 0))
    (hi : ¬(w0.ignoreConfigured = true ∧ ed.targetInIgnore = true))
    (hm : ∀ em ∈ ems, em.pointerId = ed.pointerId ∧
      (em.clientY - ed.clientY).natAbs ≤ 2) :
    (runMoves (onPointerDown w0 ed) ems).isPointerDown = true ∧
    (runMoves (onPointerDown w0 ed) ems).isDragActive = false ∧
    (runMoves (onPointerDown w0 ed) ems).scrollTop = w0.scrollTop ∧
    (∀ (w : World) (ev : Ev), (step w ev).scrollTop ≠ w.scrollTop →
      (step w ev).isDragActive = true) := by
  rw [onPointerDown_arm w0 ed ht hb hi]
  rw [runMoves_small ed ems _ (by simp) (by simp [h0]) (by simp) (by simp) hm]
  exact ⟨rfl, by simp [h0], rfl, step_scroll_write⟩

/-- Witness for claim C5: on the initial world, pointer-down at y = 100
followed by moves of the same pointer to y = 101 and y = 98 (both within
the threshold) leaves the machine Armed with the scroll offset untouched. -/
theorem small_moves_keep_armed_witness :
    (runMoves (onPointerDown initialWorld eDown1)
        [{ pointerType := "mouse", button := 0, pointerId := 1, clientY := 101
         , targetInIgnore := false }
        ,{ pointerType := "mouse", button := 0, pointerId := 1, clientY := 98
         , targetInIgnore := false }]).isPointerDown = true ∧
    (runMoves (onPointerDown initialWorld eDown1)
        [{ pointerType := "mouse", button := 0, pointerId := 1, clientY := 101
         , targetInIgnore := false }
        ,{ pointerType := "mouse", button := 0, pointerId := 1, clientY := 98
         , targetInIgnore := false }]).isDragActive = false ∧
    (runMoves (onPointerDown initialWorld eDown1)
        [{ pointerType := "mouse", button := 0, pointerId := 1, clientY := 101
         , targetInIgnore := false }
        ,{ pointerType := "mouse", button := 0, pointerId := 1, clientY := 98
         , targetInIgnore := false }]).scrollTop = initialWorld.scrollTop ∧
    (∀ (w : World) (ev : Ev), (step w ev).scrollTop ≠ w.scrollTop →
      (step w ev).isDragActive = true) :=
  small_moves_keep_armed initialWorld eDown1
    [{ pointerType := "mouse", button := 0, pointerId := 1, clientY := 101
     , targetInIgnore := false }
    ,{ pointerType := "mouse", button := 0, pointerId := 1, clientY := 98
     , targetInIgnore := false }]
    (by decide) (by decide) (by decide) (by decide) (by decide)

/-- Counterexample for claim C6: a pointer-down whose pointer type is pen
and whose button is 2 (not the primary button) is NOT ignored — the
non-primary-button filter at source line 126 applies only to mouse
pointers, so this event arms the gesture instead of leaving the
controller Idle. -/
theorem pen_nonprimary_button_arms :
    ePenBtn2.pointerType ≠ "touch" ∧
    ePenBtn2.button ≠ 0 ∧
    initialWorld.isPointerDown = false ∧
    (onPointerDown initialWorld ePenBtn2).isPointerDown = true ∧
    (onPointerDown initialWorld ePenBtn2).pointerIdentifier = some 7 := by
  decide

/-- Claim C6 as amended: a pointer-down is ignored (no state change) when
its pointer type is touch, when its pointer type is mouse and its button
is not the primary button, or when an ignore selector is configured and
the target lies inside it; the non-primary-button filter applies only to
mouse pointers. -/
theorem pointerdown_filter_amended (w : World) (e : PEvent) :
    (e.pointerType = "touch" → onPointerDown w e = w) ∧
    (e.pointerType = "mouse" → e.button ≠ 0 → onPointerDown w e = w) ∧
    (w.ignoreConfigured = true → e.targetInIgnore = true →
      onPointerDown w e = w) := by
  refine ⟨fun h => by simp [onPointerDown, h], ?_, ?_⟩
  · intro hm hb
    simp [onPointerDown, hm, hb]
  · intro hc ht
    by_cases h1 : e.pointerType = "touch"
    · simp [onPointerDown, h1]
    · by_cases h2 : e.pointerType = "mouse" ∧ e.button ≠ 0 <;>
        simp [onPointerDown, h1, h2, hc, ht]

/-- Witness for the amended claim C6: a touch pointer-down, a mouse
pointer-down with button 1, and a pointer-down inside a configured ignore
zone each leave the initial world unchanged. -/
theorem pointerdown_filter_amended_witness :
    onPointerDown initialWorld eTouch = initialWorld ∧
    onPointerDown initialWorld
      { pointerType := "mouse", button := 1, pointerId := 4, clientY := 20
      , targetInIgnore := false } = initialWorld ∧
    onPointerDown { initialWorld with ignoreConfigured := true }
      { pointerType := "mouse", button := 0, pointerId := 5, clientY := 30
      , targetInIgnore := true }
      = { initialWorld with ignoreConfigured := true } :=
  ⟨(pointerdown_filter_amended initialWorld eTouch).1 (by decide),
   (pointerdown_filter_amended initialWorld
      { pointerType := "mouse", button := 1, pointerId := 4, clientY := 20
      , targetInIgnore := false }).2.1 (by decide) (by decide),
   (pointerdown_filter_amended { initialWorld with ignoreConfigured := true }
      { pointerType := "mouse", button := 0, pointerId := 5, clientY := 30
      , targetInIgnore := true }).2.2 (by decide) (by decide)⟩

/-- Counterexample for claim C1: onPointerDown never checks whether a
pointer already owns the gesture.  While pointer 1 is Armed, a qualifying
pointer-down from pointer 2 overwrites activePointerId and startY; while
pointer 1 is Dragging, it also resets suppressNextClick.  The second
pointer-down is therefore not ignored. -/
theorem second_pointerdown_overwrites_state :
    armedW.isPointerDown = true ∧
    armedW.pointerIdentifier = some 1 ∧
    armedW.startY = 100 ∧
    (onPointerDown armedW eDown2).pointerIdentifier = some 2 ∧
    (onPointerDown armedW eDown2).startY = 150 ∧
    draggingW.isDragActive = true ∧
    draggingW.suppressClick = true ∧
    (onPointerDown draggingW eDown2).suppressClick = false ∧
    (onPointerDown draggingW eDown2).pointerIdentifier = some 2 := by
  decide

/-- Claim C1 as amended: while a pointer owns the gesture, pointer-move,
pointer-up, pointer-leave and pointer-cancel events for any other pointer
id are ignored without state change, but a qualifying pointer-down from
any pointer (including a second one while Armed or Dragging) is processed
and overwrites activePointerId, startY and startScrollOffset and clears
suppressNextClick, transferring gesture ownership to the new pointer. -/
theorem pointer_ownership_amended (w : World) (e : PEvent) :
    (w.isPointerDown = true → e.pointerType ≠ "touch" →
      ¬(e.pointerType = "mouse" ∧ e.button ≠ 0) →
      ¬(w.ignoreConfigured = true ∧ e.targetInIgnore = true) →
      onPointerDown w e = { w with isPointerDown := true
                                 , pointerIdentifier := some e.pointerId
                                 , startY := e.clientY
                                 , startScrollTop := w.scrollTop
                                 , suppressClick := false }) ∧
    (w.pointerIdentifier ≠ some e.pointerId →
      onPointerMove w e = (w, false) ∧
      finishInteraction w e = w ∧
      cancelInteraction w e = w) := by
  constructor
  · intro _ ht hb hi
    exact onPointerDown_arm w e ht hb hi
  · intro hne
    exact ⟨by simp [onPointerMove, hne], by simp [finishInteraction, hne],
      by simp [cancelInteraction, hne]⟩

/-- Witness for the amended claim C1: while pointer 1 is Armed, a
pointer-down of pointer 2 takes over the gesture, and move, up, leave and
cancel events of the foreign pointer 9 leave the state unchanged. -/
theorem pointer_ownership_amended_witness :
    onPointerDown armedW eDown2
      = { armedW with isPointerDown := true
                    , pointerIdentifier := some eDown2.pointerId
                    , startY := eDown2.clientY
                    , startScrollTop := armedW.scrollTop
                    , suppressClick := false } ∧
    onPointerMove armedW eMoveOther = (armedW, false) ∧
    finishInteraction armedW eMoveOther = armedW ∧
    cancelInteraction armedW eMoveOther = armedW :=
  ⟨(pointer_ownership_amended armedW eDown2).1 (by decide) (by decide)
      (by decide) (by decide),
   (pointer_ownership_amended armedW eMoveOther).2 (by decide)⟩

/-- Counterexample for claim C2: after a Dragging to Idle pointer-up with
suppressNextClick set, the capturing interceptor does not detach itself
after the first click — it stays attached until the zero-delay timer
fires, so a second click dispatched before the timer is also cancelled
instead of being delivered normally. -/
theorem click_guard_persists_until_timer :
    postDragW.clickGuardInstalled = true ∧
    (dispatchClick postDragW).2 = true ∧
    (dispatchClick postDragW).1.clickGuardInstalled = true ∧
    (dispatchClick (dispatchClick postDragW).1).2 = true := by
  decide

/-- Claim C2 as amended: the interceptor installed after a Dragging to
Idle pointer-up with suppressNextClick set cancels every click dispatched
while it is attached and is removed by the zero-delay timer queued at
install time (not by the click itself); under the usual ordering in which
exactly one click is dispatched before that timer fires, exactly that
click is cancelled and any later click is delivered normally. -/
theorem click_suppression_amended (w : World) (e : PEvent)
    (h1 : w.isPointerDown = true)
    (h2 : w.pointerIdentifier = some e.pointerId)
    (h3 : w.isDragActive = true)
    (h4 : w.suppressClick = true) :
    (finishInteraction w e).clickGuardInstalled = true ∧
    (finishInteraction w e).guardTimerPending = true ∧
    (dispatchClick (finishInteraction w e)).2 = true ∧
    (dispatchClick (finishInteraction w e)).1.clickGuardInstalled = true ∧
    (guardTimerFire (dispatchClick
        (finishInteraction w e)).1).clickGuardInstalled = false ∧
    (dispatchClick (guardTimerFire (dispatchClick
        (finishInteraction w e)).1)).2 = false := by
  have hsc : (endDrag w).suppressClick = true := by
    rw [(endDrag_core w h3).2.2.2.2.1]; exact h4
  have hfin : (finishInteraction w e).clickGuardInstalled = true ∧
      (finishInteraction w e).guardTimerPending = true := by
    constructor <;> simp [finishInteraction, h1, h2, h3, hsc]
  refine ⟨hfin.1, hfin.2, ?_, ?_, ?_, ?_⟩
  · simp [dispatchClick, hfin.1]
  · simp [dispatchClick, hfin.1]
  · simp [dispatchClick, hfin.1, guardTimerFire, hfin.2]
  · simp [dispatchClick, hfin.1, guardTimerFire, hfin.2]

/-- Witness for the amended claim C2: on the concrete Dragging world of
pointer 1, pointer-up installs the interceptor and queues the timer; the
next click is cancelled, the interceptor survives it, and once the timer
fires the interceptor is gone and a further click is delivered. -/
theorem click_suppression_amended_witness :
    (finishInteraction draggingW eUp1).clickGuardInstalled = true ∧
    (finishInteraction draggingW eUp1).guardTimerPending = true ∧
    (dispatchClick (finishInteraction draggingW eUp1)).2 = true ∧
    (dispatchClick (finishInteraction draggingW eUp1)).1.clickGuardInstalled
      = true ∧
    (guardTimerFire (dispatchClick
        (finishInteraction draggingW eUp1)).1).clickGuardInstalled = false ∧
    (dispatchClick (guardTimerFire (dispatchClick
        (finishInteraction draggingW eUp1)).1)).2 = false :=
  click_suppression_amended draggingW eUp1 (by decide) (by decide) (by decide)
    (by decide)

theorem endDrag_clickGuard (w : World) :
    (endDrag w).clickGuardInstalled = w.clickGuardInstalled ∧
    (endDrag w).guardTimerPending = w.guardTimerPending := by
  by_cases h : w.isDragActive = true
  · exact ⟨(endDrag_core w h).2.2.2.2.2.2.2.2.1,
      (endDrag_core w h).2.2.2.2.2.2.2.2.2.1⟩
  · rw [endDrag_of_inactive w (by simpa using h)]
    exact ⟨rfl, rfl⟩

/-- Claim C7: for every state and event, pointer-leave and pointer-cancel
run the same handler, and that handler produces exactly the state
pointer-up would produce except that the click-interceptor wiring is left
untouched: cancelInteraction equals finishInteraction with the
interceptor fields kept at their prior values, so a cancelled gesture
never installs the click veto. -/
theorem cancel_matches_finish_except_guard (w : World) (e : PEvent) :
    cancelInteraction w e
      = { finishInteraction w e with
            clickGuardInstalled := w.clickGuardInstalled
          , guardTimerPending := w.guardTimerPending } ∧
    (cancelInteraction w e).clickGuardInstalled = w.clickGuardInstalled ∧
    (cancelInteraction w e).guardTimerPending = w.guardTimerPending ∧
    (∀ pe : PEvent, step w (Ev.leave pe) = step w (Ev.cancel pe)) := by
  have hg1 := (endDrag_clickGuard w).1
  have hg2 := (endDrag_clickGuard w).2
  have hmain : cancelInteraction w e
      = { finishInteraction w e with
            clickGuardInstalled := w.clickGuardInstalled
          , guardTimerPending := w.guardTimerPending } := by
    by_cases hg : w.isPointerDown = false ∨ w.pointerIdentifier ≠ some e.pointerId
    · simp [cancelInteraction, finishInteraction, hg]
    · by_cases hd : w.isDragActive = true
      · by_cases hs : (endDrag w).suppressClick = true <;>
          simp [cancelInteraction, finishInteraction, hg, hd, hs, hg1, hg2]
      · simp [cancelInteraction, finishInteraction, hg, hd]
  exact ⟨hmain, by simp [hmain], by simp [hmain], fun pe => rfl⟩

/-- Claim C8: running the effect cleanup while a drag is active performs
the end-drag cleanup before the listeners are removed: the active-style
marker is removed, the saved text-selection mode is restored and cleared,
the drag is over, the listeners are detached, and — best-effort —
pointer capture is released when the capability is present, the active
pointer is the captured one and the release call does not fail. -/
theorem teardown_restores_globals (w : World) (v : String) (pid : Int)
    (hd : w.isDragActive = true)
    (hs : w.previousUserSelect = some v) :
    (teardown w).classActive = false ∧
    (teardown w).userSelect = v ∧
    (teardown w).previousUserSelect = none ∧
    (teardown w).isDragActive = false ∧
    (teardown w).listenersAttached = false ∧
    (w.pointerIdentifier = some pid → w.hasPointerCaptureAvail = true →
      w.captured = some pid → w.releaseCaptureFails = false →
      (teardown w).captured = none) := by
  obtain ⟨h1, h2, _, _, _, _, _, _, _, _, _, h12, h13⟩ := endDrag_core w hd
  refine ⟨by simp [teardown, h2], ?_, by simp [teardown, h12], by simp [teardown, h1],
    by simp [teardown], ?_⟩
  · have : (endDrag w).userSelect = v := by rw [h13, hs]
    simp [teardown, this]
  · intro hp hc hcap hr
    have : (endDrag w).captured = none := by
      simp [endDrag, endDragE, releasePointerCaptureOp, hd, hp, hc, hcap, hr]
      rcases hu : w.previousUserSelect with _ | v2 <;> simp [hu]
    simp [teardown, this]

/-- Witness for claim C8: tearing down the concrete Dragging world of
pointer 1 removes the active class, restores the selection mode to auto,
ends the drag, detaches the listeners and releases the capture. -/
theorem teardown_restores_globals_witness :
    (teardown draggingW).classActive = false ∧
    (teardown draggingW).userSelect = "auto" ∧
    (teardown draggingW).previousUserSelect = none ∧
    (teardown draggingW).isDragActive = false ∧
    (teardown draggingW).listenersAttached = false ∧
    (draggingW.pointerIdentifier = some 1 →
      draggingW.hasPointerCaptureAvail = true →
      draggingW.captured = some 1 → draggingW.releaseCaptureFails = false →
      (teardown draggingW).captured = none) :=
  teardown_restores_globals draggingW "auto" 1 (by decide) (by decide)

/-- Claim C9: the handlers never raise an error to the host.  The begin-
and end-drag operations, the only places where the host capture API can
throw, always evaluate to an ok result because the throwing calls are
wrapped in try/catch; and a world whose capture request fails produces
the same drag classification, scroll offset, click suppression and
preventDefault outcome under pointer-move as one whose request succeeds,
so the gesture keeps working via move events alone. -/
theorem handlers_never_throw (w : World) (id : Int) (e : PEvent) :
    beginDragE w id = Except.ok (beginDrag w id) ∧
    endDragE w = Except.ok (endDrag w) ∧
    (onPointerMove { w with setCaptureFails := true } e).1.isDragActive
      = (onPointerMove w e).1.isDragActive ∧
    (onPointerMove { w with setCaptureFails := true } e).1.scrollTop
      = (onPointerMove w e).1.scrollTop ∧
    (onPointerMove { w with setCaptureFails := true } e).1.suppressClick
      = (onPointerMove w e).1.suppressClick ∧
    (onPointerMove { w with setCaptureFails := true } e).2
      = (onPointerMove w e).2 := by
  have hB : beginDragE w id = Except.ok (beginDrag w id) := by
    by_cases h : w.isDragActive = true
    · simp [beginDrag, beginDragE, h]
    · by_cases hf : w.setCaptureFails = true <;>
        simp [beginDrag, beginDragE, setPointerCaptureOp, h, hf]
  have hE : endDragE w = Except.ok (endDrag w) := by
    by_cases h : w.isDragActive = true
    · rcases hp : w.pointerIdentifier with _ | pid
      · simp [endDrag, endDragE, h, hp]
      · by_cases hc2 : w.hasPointerCaptureAvail = true ∧ w.captured = some pid
        · by_cases hr : w.releaseCaptureFails = true <;>
            simp [endDrag, endDragE, releasePointerCaptureOp, h, hp, hc2, hr]
        · simp [endDrag, endDragE, h, hp, hc2]
    · have h2 : w.isDragActive = false := by simpa using h
      simp [endDrag, endDragE, h2]
  refine ⟨hB, hE, ?_⟩
  by_cases hg : w.isPointerDown = false ∨ w.pointerIdentifier ≠ some e.pointerId
  · simp [onPointerMove, hg]
  · by_cases hc : w.isDragActive = false ∧ 2 < (e.clientY - w.startY).natAbs
    · obtain ⟨hca, hcb⟩ := hc
      obtain ⟨a1, a2, a3, _⟩ := beginDrag_of_inactive w e.pointerId hca
      obtain ⟨b1, b2, b3, _⟩ :=
        beginDrag_of_inactive { w with setCaptureFails := true } e.pointerId
          (by simpa using hca)
      simp only [hca] at b1 b2 b3
      simp [onPointerMove, hg, hca, hcb, a1, a2, a3, b1, b2, b3]
    · by_cases hd : w.isDragActive = true
      · simp [onPointerMove, hg, hc, hd]
      · have hda : w.isDragActive = false := by simpa using hd
        have hlt : ¬ 2 < (e.clientY - w.startY).natAbs := fun hx => hc ⟨hda, hx⟩
        simp [onPointerMove, hg, hda, hlt]

theorem endDrag_captured (w : World) (h : w.isDragActive = true) :
    (endDrag w).captured =
      (match w.pointerIdentifier with
       | some pid =>
          if w.hasPointerCaptureAvail = true ∧ w.captured = some pid then
            (if w.releaseCaptureFails = true then w.captured else none)
          else w.captured
       | none => w.captured) := by
  rcases hp : w.pointerIdentifier with _ | pid
  · rcases hu : w.previousUserSelect with _ | v <;>
      simp [endDrag, endDragE, h, hp, hu]
  · by_cases hc : w.hasPointerCaptureAvail = true ∧ w.captured = some pid
    · by_cases hr : w.releaseCaptureFails = true <;>
        rcases hu : w.previousUserSelect with _ | v <;>
        simp [endDrag, endDragE, releasePointerCaptureOp, h, hp, hu, hc, hr]
    · rcases hu : w.previousUserSelect with _ | v <;>
        simp [endDrag, endDragE, h, hp, hu, hc]

/-- Claim C10: endDrag changes the captured pointer only when the
hasPointerCapture capability is present, it reports the active pointer id
as captured, and the release call does not fail; on a platform lacking
hasPointerCapture the captured pointer is left untouched (release is
skipped as a silent no-op) while the active class is still removed and
the saved selection mode still restored. -/
theorem release_guarded_by_capability (w : World) :
    ((endDrag w).captured ≠ w.captured →
      w.hasPointerCaptureAvail = true ∧ w.captured = w.pointerIdentifier ∧
      w.pointerIdentifier ≠ none ∧ w.releaseCaptureFails = false ∧
      w.isDragActive = true) ∧
    (w.hasPointerCaptureAvail = false → (endDrag w).captured = w.captured) ∧
    (w.hasPointerCaptureAvail = false → w.isDragActive = true →
      (endDrag w).classActive = false ∧
      ∀ v, w.previousUserSelect = some v → (endDrag w).userSelect = v) := by
  by_cases hd : w.isDragActive = true
  · have hcap := endDrag_captured w hd
    have core := endDrag_core w hd
    refine ⟨?_, ?_, ?_⟩
    · intro hne
      rw [hcap] at hne
      rcases hp : w.pointerIdentifier with _ | pid
      · rw [hp] at hne
        simp at hne
      · rw [hp] at hne
        by_cases hc : w.hasPointerCaptureAvail = true ∧ w.captured = some pid
        · by_cases hr : w.releaseCaptureFails = true
          · simp [hc, hr] at hne
          · exact ⟨hc.1, by rw [hc.2], by simp, by simpa using hr, hd⟩
        · simp [hc] at hne
    · intro hna
      rw [hcap]
      rcases hp : w.pointerIdentifier with _ | pid
      · simp
      · simp [hna]
    · intro _ _
      refine ⟨core.2.1, fun v hv => ?_⟩
      have h13 := core.2.2.2.2.2.2.2.2.2.2.2.2
      rw [h13, hv]
  · have hw : endDrag w = w := endDrag_of_inactive w (by simpa using hd)
    rw [hw]
    exact ⟨fun hne => absurd rfl hne, fun _ => rfl,
      fun _ h2 => absurd h2 hd⟩

/-- Witness for claim C10: on the concrete Dragging world of pointer 1
with the hasPointerCapture capability absent, endDrag leaves the captured
pointer untouched while still removing the active class and restoring the
selection mode to auto. -/
theorem release_guarded_by_capability_witness :
    (endDrag { draggingW with hasPointerCaptureAvail := false }).captured
      = ({ draggingW with hasPointerCaptureAvail := false } : World).captured ∧
    (endDrag { draggingW with hasPointerCaptureAvail := false }).classActive
      = false ∧
    (endDrag { draggingW with hasPointerCaptureAvail := false }).userSelect
      = "auto" :=
  ⟨(release_guarded_by_capability
      { draggingW with hasPointerCaptureAvail := false }).2.1 (by decide),
   ((release_guarded_by_capability
      { draggingW with hasPointerCaptureAvail := false }).2.2 (by decide)
        (by decide)).1,
   ((release_guarded_by_capability
      { draggingW with hasPointerCaptureAvail := false }).2.2 (by decide)
        (by decide)).2 "auto" (by decide)⟩

theorem selInv_onPointerDown (v : String) (w : World) (e : PEvent)
    (h : selInv v w) : selInv v (onPointerDown w e) := by
  unfold selInv at h ⊢
  unfold onPointerDown
  split
  · exact h
  · split
    · exact h
    · split
      · exact h
      · exact ⟨fun hx => h.1 hx, fun hx => h.2.1 hx, fun _ => rfl⟩

theorem selInv_beginDrag (v : String) (w : World) (id : Int)
    (hpd : w.isPointerDown = true) (h : selInv v w) :
    selInv v (beginDrag w id) := by
  unfold selInv at h ⊢
  by_cases hd : w.isDragActive = true
  · rw [beginDrag_of_active w id hd]
    exact h
  · have hd' : w.isDragActive = false := by simpa using hd
    obtain ⟨b1, _, _, b4, _, _, _, b8, _, _⟩ := beginDrag_of_inactive w id hd'
    obtain ⟨hu, _⟩ := h.2.1 hd'
    refine ⟨fun _ => ?_, fun hx => ?_, fun _ => ?_⟩
    · rw [b8, hu]
    · simp [b1] at hx
    · rw [b4, hpd]

theorem selInv_endDrag (v : String) (w : World) (h : selInv v w) :
    selInv v (endDrag w) := by
  unfold selInv at h ⊢
  by_cases hd : w.isDragActive = true
  · have core := endDrag_core w hd
    have hprev : w.previousUserSelect = some v := h.1 hd
    have h13 := core.2.2.2.2.2.2.2.2.2.2.2.2
    refine ⟨fun hx => ?_, fun _ => ⟨?_, ?_⟩, fun hx => ?_⟩
    · simp [core.1] at hx
    · rw [h13, hprev]
    · exact core.2.2.2.2.2.2.2.2.2.2.2.1
    · simp [core.1] at hx
  · rw [endDrag_of_inactive w (by simpa using hd)]
    exact h

theorem selInv_onPointerMove (v : String) (w : World) (e : PEvent)
    (h : selInv v w) : selInv v (onPointerMove w e).1 := by
  by_cases hg : w.isPointerDown = false ∨ w.pointerIdentifier ≠ some e.pointerId
  · have heq : onPointerMove w e = (w, false) := by simp [onPointerMove, hg]
    rw [heq]
    exact h
  · simp only [not_or, ne_eq, not_not, Bool.not_eq_false] at hg
    by_cases hc : w.isDragActive = false ∧ 2 < (e.clientY - w.startY).natAbs
    · have hb := beginDrag_of_inactive w e.pointerId hc.1
      have hinv1 := selInv_beginDrag v w e.pointerId hg.1 h
      have heq : onPointerMove w e =
          ({ beginDrag w e.pointerId with
              suppressClick := true
            , scrollTop := (beginDrag w e.pointerId).startScrollTop
                - (e.clientY - w.startY) }, true) := by
        simp [onPointerMove, hg.1, hg.2, hc, hb.1]
      rw [heq]
      unfold selInv at hinv1 ⊢
      exact ⟨fun _ => hinv1.1 hb.1, fun hx => absurd hx (by simp [hb.1]),
        fun _ => hinv1.2.2 hb.1⟩
    · by_cases hd : w.isDragActive = true
      · have heq : onPointerMove w e =
            ({ w with
                suppressClick := true,
                scrollTop := w.startScrollTop - (e.clientY - w.startY) },
              true) := by
          simp [onPointerMove, hg.1, hg.2, hd]
        rw [heq]
        unfold selInv at h ⊢
        exact ⟨fun _ => h.1 hd, fun hx => absurd hx (by simp [hd]),
          fun _ => h.2.2 hd⟩
      · have hda : w.isDragActive = false := by simpa using hd
        have hlt : ¬ 2 < (e.clientY - w.startY).natAbs := fun hx => hc ⟨hda, hx⟩
        have heq : onPointerMove w e = (w, false) := by
          simp [onPointerMove, hg.1, hg.2, hda, hlt]
        rw [heq]
        exact h

theorem selInv_finishInteraction (v : String) (w : World) (e : PEvent)
    (h : selInv v w) : selInv v (finishInteraction w e) := by
  by_cases hg : w.isPointerDown = false ∨ w.pointerIdentifier ≠ some e.pointerId
  · have heq : finishInteraction w e = w := by simp [finishInteraction, hg]
    rw [heq]
    exact h
  · by_cases hd : w.isDragActive = true
    · have hend := selInv_endDrag v w h
      have core := endDrag_core w hd
      unfold selInv at hend ⊢
      by_cases hs : (endDrag w).suppressClick = true
      · have heq : finishInteraction w e =
            { endDrag w with
                clickGuardInstalled := true,
                guardTimerPending := true,
                isPointerDown := false,
                pointerIdentifier := none,
                suppressClick := false } := by
          simp [finishInteraction, hg, hd, hs]
        rw [heq]
        exact ⟨fun hx => absurd hx (by simp [core.1]),
          fun _ => hend.2.1 core.1, fun hx => absurd hx (by simp [core.1])⟩
      · have heq : finishInteraction w e =
            { endDrag w with
                isPointerDown := false,
                pointerIdentifier := none,
                suppressClick := false } := by
          simp [finishInteraction, hg, hd, hs]
        rw [heq]
        exact ⟨fun hx => absurd hx (by simp [core.1]),
          fun _ => hend.2.1 core.1, fun hx => absurd hx (by simp [core.1])⟩
    · have heq : finishInteraction w e =
          { w with
              isPointerDown := false,
              pointerIdentifier := none,
              suppressClick := false } := by
        simp [finishInteraction, hg, hd]
      rw [heq]
      unfold selInv at h ⊢
      exact ⟨fun hx => absurd hx hd, fun _ => h.2.1 (by simpa using hd),
        fun hx => absurd hx hd⟩

theorem selInv_cancelInteraction (v : String) (w : World) (e : PEvent)
    (h : selInv v w) : selInv v (cancelInteraction w e) := by
  by_cases hg : w.isPointerDown = false ∨ w.pointerIdentifier ≠ some e.pointerId
  · have heq : cancelInteraction w e = w := by simp [cancelInteraction, hg]
    rw [heq]
    exact h
  · by_cases hd : w.isDragActive = true
    · have hend := selInv_endDrag v w h
      have core := endDrag_core w hd
      unfold selInv at hend ⊢
      have heq : cancelInteraction w e =
          { endDrag w with
              isPointerDown := false,
              pointerIdentifier := none,
              suppressClick := false } := by
        simp [cancelInteraction, hg, hd]
      rw [heq]
      exact ⟨fun hx => absurd hx (by simp [core.1]),
        fun _ => hend.2.1 core.1, fun hx => absurd hx (by simp [core.1])⟩
    · have heq : cancelInteraction w e =
          { w with
              isPointerDown := false,
              pointerIdentifier := none,
              suppressClick := false } := by
        simp [cancelInteraction, hg, hd]
      rw [heq]
      unfold selInv at h ⊢
      exact ⟨fun hx => absurd hx hd, fun _ => h.2.1 (by simpa using hd),
        fun hx => absurd hx hd⟩

theorem selInv_step (v : String) (w : World) (ev : Ev) (h : selInv v w) :
    selInv v (step w ev) := by
  cases ev with
  | down e => exact selInv_onPointerDown v w e h
  | move e => exact selInv_onPointerMove v w e h
  | up e => exact selInv_finishInteraction v w e h
  | leave e => exact selInv_cancelInteraction v w e h
  | cancel e => exact selInv_cancelInteraction v w e h
  | click =>
      have heq : (dispatchClick w).1 = w := by
        unfold dispatchClick
        split <;> rfl
      show selInv v (dispatchClick w).1
      rw [heq]
      exact h
  | timer =>
      show selInv v (guardTimerFire w)
      unfold selInv at h ⊢
      unfold guardTimerFire
      split
      · exact ⟨fun hx => h.1 hx, fun hx => h.2.1 hx, fun hx => h.2.2 hx⟩
      · exact h

theorem selInv_run (v : String) (evs : List Ev) :
    ∀ w : World, selInv v w → selInv v (run w evs) := by
  induction evs with
  | nil => intro w h; exact h
  | cons ev rest ih => intro w h; exact ih (step w ev) (selInv_step v w ev h)

/-- Claim C3: starting from any state satisfying the save/restore
invariant for ambient selection mode v (in particular from Idle with the
global mode equal to v), every event sequence preserves the invariant;
whenever the machine is back at Idle the global text-selection mode again
equals v, and tearing the controller down also leaves it equal to v.  The
saved mode is captured at most once per gesture (beginDrag on an active
drag is the identity) and restored at most once (endDrag on an inactive
drag is the identity, and an active endDrag clears the saved value). -/
theorem selection_mode_roundtrip (v : String) (w0 : World) (evs : List Ev)
    (h : selInv v w0) :
    selInv v (run w0 evs) ∧
    ((run w0 evs).isPointerDown = false → (run w0 evs).userSelect = v) ∧
    (teardown (run w0 evs)).userSelect = v ∧
    (∀ (w : World) (id : Int), w.isDragActive = true → beginDrag w id = w) ∧
    (∀ w : World, w.isDragActive = false → endDrag w = w) := by
  have hr := selInv_run v evs w0 h
  refine ⟨hr, ?_, ?_, fun w id hw => beginDrag_of_active w id hw,
    fun w hw => endDrag_of_inactive w hw⟩
  · intro hpd
    by_cases hda : (run w0 evs).isDragActive = true
    · exact absurd (hr.2.2 hda) (by simp [hpd])
    · exact (hr.2.1 (by simpa using hda)).1
  · have hT := selInv_endDrag v (run w0 evs) hr
    have hda : (endDrag (run w0 evs)).isDragActive = false := by
      by_cases hx : (run w0 evs).isDragActive = true
      · exact (endDrag_core _ hx).1
      · rw [endDrag_of_inactive _ (by simpa using hx)]
        simpa using hx
    have hu := (hT.2.1 hda).1
    simpa [teardown] using hu

/-- Witness for claim C3: a full drag gesture of pointer 1 on the initial
world (whose ambient selection mode is auto) ends Idle with the global
selection mode equal to auto again. -/
theorem selection_mode_roundtrip_witness :
    selInv "auto" (run initialWorld [Ev.down eDown1, Ev.move eMove1, Ev.up eUp1]) ∧
    ((run initialWorld [Ev.down eDown1, Ev.move eMove1, Ev.up eUp1]).isPointerDown
        = false →
      (run initialWorld [Ev.down eDown1, Ev.move eMove1, Ev.up eUp1]).userSelect
        = "auto") ∧
    (teardown (run initialWorld
        [Ev.down eDown1, Ev.move eMove1, Ev.up eUp1])).userSelect = "auto" ∧
    (∀ (w : World) (id : Int), w.isDragActive = true → beginDrag w id = w) ∧
    (∀ w : World, w.isDragActive = false → endDrag w = w) :=
  selection_mode_roundtrip "auto" initialWorld
    [Ev.down eDown1, Ev.move eMove1, Ev.up eUp1]
    (by unfold selInv; exact ⟨by decide, by decide, by decide⟩)
